import Mathlib

/-!
Shallow embedding of `scrapeErowid.py`: a linear scraping script that
collects report links, visits each link with a browser, extracts fields
from the page, and merges records into a CSV table with batch-based
deduplication on the `Link` column.

Modelling conventions:
* A CSV dataframe is a `List Record` (rows in order); the reports file on
  disk is `Option (List Record)` (`none` = the file does not exist).
  `pandas.to_csv` is deterministic, so two equal row lists produce
  byte-identical files; row-list equality is the model of byte identity.
* Python `set` iteration order is unspecified, so `list(set(xs))` is
  modelled by an explicit parameter `setOrder : List String → List String`
  about which theorems assume only what Python guarantees (the result is
  duplicate-free and has the same members as the input).
* The browser is an oracle `world : String → Fetch` giving, for each URL,
  either a timeout or the loaded page (its raw source, its final URL after
  redirects, and the parsed soup).  A Boolean `extraction_raises` on the
  page models the `except Exception` arm of the extraction `try` block.
* Console printing is not modelled; side effects that the spec's claims
  mention (driver.get calls, batch saves, driver.quit, the ban stop) are
  recorded in an event trace.
-/

/-- One row of the reports CSV: the dict built at lines 118-126 of the
script. -/
structure Record where
  Title : String
  Substance : String
  Author : String
  Bodyweight : String
  DoseChart : String
  ReportText : String
  Link : String
deriving DecidableEq

/-- The parts of the parsed HTML page (BeautifulSoup) that the script
looks at.  `h2` is the text of `soup.find("h2")`, dereferenced without a
guard at line 83 of the ban branch (`none` when the page has no `h2`
tag, in which case `find` returns `None` and `.text` raises
`AttributeError`).  Each extraction selector result (lines 93-116) is
`none` when the element is absent; `dosechart_rows` lists the cell texts
of each `table.dosechart tbody tr` row; `report_text_div` holds the
stripped strings of `div.report-text-surround`. -/
structure Soup where
  h2 : Option String
  title_div : Option String
  substance_div : Option String
  author_div : Option String
  bodyweight_td : Option String
  dosechart_rows : List (List String)
  report_text_div : Option (List String)
deriving DecidableEq

/-- What `driver.get` leaves behind for one URL: the raw page source, the
final resolved URL, the parsed soup, and whether the extraction `try`
block raises an unexpected exception on this page. -/
structure Page where
  page_source : String
  current_url : String
  soup : Soup
  extraction_raises : Bool
deriving DecidableEq

/-- Result of one `driver.get(href)`: either `TimeoutException` or a
loaded page. -/
inductive Fetch where
  | timeout : Fetch
  | loaded : Page → Fetch
deriving DecidableEq

/-- BATCH_SIZE = 100 (line 17). -/
def BATCH_SIZE : Nat := 100

/-- The domain check of lines 33 and 69. -/
def erowid_origin : String := "https://www.erowid.org"

/-- The ban signature searched for in the page source (line 82). -/
def BAN_SIGNATURE : String := "403 Forbidden: Your IP Address Has Been Blocked"

/-- Substring search on character lists: `charListHasSub pat s` is true
iff `pat` occurs contiguously in `s` (the semantics of Python
`pat in s`). -/
def charListHasSub (pat : List Char) : List Char → Bool
  | [] => pat.isEmpty
  | c :: t => pat.isPrefixOf (c :: t) || charListHasSub pat t

/-- Python `pat in s` on strings. -/
def strContains (s pat : String) : Bool :=
  charListHasSub pat.data s.data

/-- Python `s.startswith(pre)`. -/
def strStartsWith (s pre : String) : Bool :=
  pre.data.isPrefixOf s.data

/-- Python `s.strip()`: drop whitespace from both ends. -/
def strTrim (s : String) : String :=
  String.mk
    (((s.data.dropWhile Char.isWhitespace).reverse.dropWhile
      Char.isWhitespace).reverse)

/-- One fuel-counted pass of Python `s.replace(pat, rep)`: scan left to
right, replacing non-overlapping occurrences of `pat`.  The fuel starts
at the length of the scanned list and each step consumes at least one
character, so it never runs out for a non-empty `pat`. -/
def replaceCharsAux (pat rep : List Char) : Nat → List Char → List Char
  | _, [] => []
  | 0, s => s
  | fuel + 1, c :: t =>
    if pat.isPrefixOf (c :: t) then
      rep ++ replaceCharsAux pat rep fuel ((c :: t).drop pat.length)
    else
      c :: replaceCharsAux pat rep fuel t

/-- Python `s.replace(pat, rep)`.  The script only calls this with the
non-empty pattern "by" (line 101), so the empty-pattern guard is inert. -/
def strReplace (s pat rep : String) : String :=
  if pat.data.isEmpty then s
  else String.mk (replaceCharsAux pat.data rep.data s.data.length s.data)

/-- Python `sep.join(parts)` for a non-degenerate separator. -/
def strJoinSep (sep : String) : List String → String
  | [] => ""
  | [x] => x
  | x :: y :: t => x ++ sep ++ strJoinSep sep (y :: t)

/-- Python `"".join(parts)`. -/
def strConcat (parts : List String) : String :=
  parts.foldl (fun a b => a ++ b) ""

/-- Line 82: the ban test on the raw page source. -/
def page_is_ban (p : Page) : Bool :=
  strContains p.page_source BAN_SIGNATURE

/-- Line 89: the off-domain redirect test on `driver.current_url`. -/
def url_is_external (u : String) : Bool :=
  strContains u "reset.me" || strContains u "wordpress.com"

/-- Lines 93-126: build one record from the soup, substituting a
placeholder for each field whose selector found nothing. -/
def extract_fields (soup : Soup) (href : String) : Record :=
  { Title :=
      match soup.title_div with
      | some t => strTrim t
      | none => "Unknown Title"
    Substance :=
      match soup.substance_div with
      | some t => strTrim t
      | none => "Unknown Substance"
    Author :=
      match soup.author_div with
      | some t => strTrim (strReplace t "by" "")
      | none => "Unknown"
    Bodyweight :=
      match soup.bodyweight_td with
      | some t => strTrim t
      | none => "Unknown"
    DoseChart :=
      let entries :=
        (soup.dosechart_rows.filter (fun cols => cols.length == 5)).map
          (fun cols => strJoinSep " | " (cols.map strTrim))
      if entries.isEmpty then "No Dose Chart Available"
      else strJoinSep "\n" entries
    ReportText :=
      match soup.report_text_div with
      | some parts => strConcat parts
      | none => "No Text Available"
    Link := href }

/-- `df.drop_duplicates(subset="Link")` keeps the first row bearing each
`Link` value, in order; `seen` accumulates the link keys already kept. -/
def dedupByLinkAux : List String → List Record → List Record
  | _, [] => []
  | seen, r :: rs =>
    if r.Link ∈ seen then dedupByLinkAux seen rs
    else r :: dedupByLinkAux (r.Link :: seen) rs

/-- `df.drop_duplicates(subset="Link")` (lines 139, 142, 156). -/
def drop_duplicates_by_link (df : List Record) : List Record :=
  dedupByLinkAux [] df

/-- `remove_duplicates_from_csv` (lines 151-159): if the reports file
exists, read it, drop duplicate `Link` rows, and rewrite it; otherwise do
nothing. -/
def remove_duplicates_from_csv (file : Option (List Record)) :
    Option (List Record) :=
  match file with
  | some df => some (drop_duplicates_by_link df)
  | none => none

theorem mem_of_mem_dedupAux {r : Record} :
    ∀ (l : List Record) (seen : List String),
      r ∈ dedupByLinkAux seen l → r ∈ l
  | [], _, h => absurd h (List.not_mem_nil r)
  | x :: xs, seen, h => by
    by_cases hx : x.Link ∈ seen
    · simp only [dedupByLinkAux, if_pos hx] at h
      exact List.mem_cons_of_mem x (mem_of_mem_dedupAux xs seen h)
    · simp only [dedupByLinkAux, if_neg hx] at h
      rcases List.mem_cons.mp h with h1 | h1
      · exact h1 ▸ List.mem_cons_self x xs
      · exact List.mem_cons_of_mem x (mem_of_mem_dedupAux xs (x.Link :: seen) h1)

theorem link_not_seen_of_mem_dedupAux {r : Record} :
    ∀ (l : List Record) (seen : List String),
      r ∈ dedupByLinkAux seen l → r.Link ∉ seen
  | [], _, h => absurd h (List.not_mem_nil r)
  | x :: xs, seen, h => by
    by_cases hx : x.Link ∈ seen
    · simp only [dedupByLinkAux, if_pos hx] at h
      exact link_not_seen_of_mem_dedupAux xs seen h
    · simp only [dedupByLinkAux, if_neg hx] at h
      rcases List.mem_cons.mp h with h1 | h1
      · exact h1 ▸ hx
      · intro hs
        exact link_not_seen_of_mem_dedupAux xs (x.Link :: seen) h1
          (List.mem_cons_of_mem _ hs)

theorem dedupAux_links_nodup :
    ∀ (l : List Record) (seen : List String),
      ((dedupByLinkAux seen l).map Record.Link).Nodup
  | [], _ => List.nodup_nil
  | x :: xs, seen => by
    by_cases hx : x.Link ∈ seen
    · simp only [dedupByLinkAux, if_pos hx]
      exact dedupAux_links_nodup xs seen
    · simp only [dedupByLinkAux, if_neg hx, List.map_cons]
      refine List.Nodup.cons ?_ (dedupAux_links_nodup xs (x.Link :: seen))
      intro hmem
      rcases List.mem_map.mp hmem with ⟨y, hy, hly⟩
      exact link_not_seen_of_mem_dedupAux xs (x.Link :: seen) hy
        (hly ▸ List.mem_cons_self x.Link seen)

theorem dedupAux_eq_self :
    ∀ (l : List Record) (seen : List String),
      ((l.map Record.Link).Nodup) → (∀ r ∈ l, r.Link ∉ seen) →
      dedupByLinkAux seen l = l
  | [], _, _, _ => rfl
  | x :: xs, seen, hnd, hns => by
    have hx : x.Link ∉ seen := hns x (List.mem_cons_self x xs)
    simp only [dedupByLinkAux, if_neg hx]
    congr 1
    simp only [List.map_cons, List.nodup_cons] at hnd
    refine dedupAux_eq_self xs (x.Link :: seen) hnd.2 ?_
    intro r hr hmem
    rcases List.mem_cons.mp hmem with h | h
    · exact hnd.1 (h ▸ List.mem_map_of_mem Record.Link hr)
    · exact hns r (List.mem_cons_of_mem x hr) h

theorem drop_duplicates_idempotent (df : List Record) :
    drop_duplicates_by_link (drop_duplicates_by_link df) =
      drop_duplicates_by_link df :=
  dedupAux_eq_self _ [] (dedupAux_links_nodup df [])
    (fun _ _ h => absurd h (List.not_mem_nil _))

/-- Claim C1: every table produced by a run of the cleanup pass has
pairwise-distinct values in the `Link` column. -/
theorem cleanup_gives_nodup_links (df out : List Record)
    (h : remove_duplicates_from_csv (some df) = some out) :
    (out.map Record.Link).Nodup := by
  have hout : out = drop_duplicates_by_link df := by
    simpa [remove_duplicates_from_csv] using h.symm
  exact hout ▸ dedupAux_links_nodup df []

def rowA : Record :=
  { Title := "t1", Substance := "s1", Author := "a1", Bodyweight := "b1",
    DoseChart := "d1", ReportText := "r1",
    Link := "https://www.erowid.org/experiences/exp.php?ID=1" }

def rowB : Record :=
  { Title := "t2", Substance := "s2", Author := "a2", Bodyweight := "b2",
    DoseChart := "d2", ReportText := "r2",
    Link := "https://www.erowid.org/experiences/exp.php?ID=2" }

def rowA2 : Record :=
  { rowA with Title := "t1-duplicate" }

/-- Witness for C1: cleaning a concrete table that holds two rows with
the same link yields distinct links. -/
theorem cleanup_gives_nodup_links_witness :
    (((drop_duplicates_by_link [rowA, rowB, rowA2]).map Record.Link).Nodup) :=
  cleanup_gives_nodup_links [rowA, rowB, rowA2]
    (drop_duplicates_by_link [rowA, rowB, rowA2]) rfl

/-- Claim C2: the cleanup pass is idempotent — running
`remove_duplicates_from_csv` twice produces the same file contents as
running it once (row lists are the model of file bytes, since
`to_csv` serialises equal row lists to identical bytes). -/
theorem cleanup_idempotent (file : Option (List Record)) :
    remove_duplicates_from_csv (remove_duplicates_from_csv file) =
      remove_duplicates_from_csv file := by
  cases file with
  | none => rfl
  | some df =>
    simp only [remove_duplicates_from_csv, Option.some.injEq]
    exact drop_duplicates_idempotent df

/-- Claim C7: any field whose selector finds nothing is replaced by its
placeholder value and the record is still produced; in particular a
missing author div yields `Author = "Unknown"`. -/
theorem extraction_uses_placeholders (soup : Soup) (href : String) :
    (soup.author_div = none → (extract_fields soup href).Author = "Unknown") ∧
    (soup.title_div = none →
      (extract_fields soup href).Title = "Unknown Title") ∧
    (soup.substance_div = none →
      (extract_fields soup href).Substance = "Unknown Substance") ∧
    (soup.bodyweight_td = none →
      (extract_fields soup href).Bodyweight = "Unknown") ∧
    (soup.report_text_div = none →
      (extract_fields soup href).ReportText = "No Text Available") ∧
    (soup.dosechart_rows = [] →
      (extract_fields soup href).DoseChart = "No Dose Chart Available") ∧
    (extract_fields soup href).Link = href := by
  refine ⟨?_, ?_, ?_, ?_, ?_, ?_, rfl⟩ <;> intro h <;>
    simp [extract_fields, h]

/-- A page whose every selector comes back empty. -/
def emptySoup : Soup :=
  { h2 := none, title_div := none, substance_div := none,
    author_div := none, bodyweight_td := none, dosechart_rows := [],
    report_text_div := none }

/-- Witness for C7: on a concrete soup with a missing author element the
extracted record has `Author = "Unknown"`. -/
theorem extraction_uses_placeholders_witness :
    (extract_fields emptySoup "https://www.erowid.org/x").Author =
      "Unknown" :=
  (extraction_uses_placeholders emptySoup "https://www.erowid.org/x").1 rfl

/-- Observable side effects of `scrape_erowid_reports`, in order:
`visit href` for each `driver.get(href)` call (line 74), `flush k` for a
batch save at one-based loop position `k` (lines 134-145), and `banStop`
for the fatal-ban early termination (lines 82-87). -/
inductive Event where
  | visit : String → Event
  | flush : Nat → Event
  | banStop : Event
deriving DecidableEq

/-- The mutable state of the scraping loop: the in-memory batch buffer
`all_data`, the `processed_count` counter, the `scraped_links` set
(modelled as a list used only through membership), the reports file on
disk, the event trace, whether `driver.quit()` has run, and whether the
run aborted with an uncaught exception (the `AttributeError` that line
83 raises on a ban page with no `h2` element — the only unguarded
dereference in the loop). -/
structure LoopState where
  all_data : List Record
  processed_count : Nat
  scraped_links : List String
  reports_file : Option (List Record)
  events : List Event
  driver_quit : Bool
  crashed : Bool
deriving DecidableEq

/-- The `Link` column of the reports file (empty when the file does not
exist). -/
def file_links : Option (List Record) → List String
  | some df => df.map Record.Link
  | none => []

/-- Lines 135-143: merge the buffered batch into the reports file.  If
the file exists, concatenate and drop duplicate `Link` rows; otherwise
the deduplicated batch becomes the initial file. -/
def batch_save (file : Option (List Record)) (batch : List Record) :
    List Record :=
  match file with
  | some existing => drop_duplicates_by_link (existing ++ batch)
  | none => drop_duplicates_by_link batch

/-- The body of the `for i, href in enumerate(report_links)` loop (lines
64-145), as structural recursion over the enumerated link list.  `total`
is `len(report_links)` after the pre-loop filtering.  The ban branch
(lines 82-87) returns without touching the rest of the list: when the
page has an `h2` element, line 83 extracts the reported address from it
(used only for the log), `driver.quit()` runs and the loop `break`s;
when it has none, `soup.find("h2")` is `None` and line 83's `.text`
raises an uncaught `AttributeError` — the run aborts on the spot,
before `driver.quit()`.  Every other branch recurses. -/
def scrape_loop (world : String → Fetch) (total : Nat) :
    List (Nat × String) → LoopState → LoopState
  | [], st => st
  | (i, href) :: rest, st =>
    if href ∈ st.scraped_links then
      scrape_loop world total rest st
    else if strStartsWith href erowid_origin then
      match world href with
      | Fetch.timeout =>
        scrape_loop world total rest
          { st with events := st.events ++ [Event.visit href] }
      | Fetch.loaded p =>
        let st1 := { st with events := st.events ++ [Event.visit href] }
        if page_is_ban p then
          match p.soup.h2 with
          | none => { st1 with crashed := true }
          | some _ =>
            { st1 with driver_quit := true,
                       events := st1.events ++ [Event.banStop] }
        else if url_is_external p.current_url then
          scrape_loop world total rest st1
        else if p.extraction_raises then
          scrape_loop world total rest st1
        else
          let r := extract_fields p.soup href
          let st2 := { st1 with
            all_data := st1.all_data ++ [r],
            processed_count := st1.processed_count + 1,
            scraped_links := st1.scraped_links ++ [href] }
          let st3 :=
            if (i + 1) % BATCH_SIZE = 0 ∨ (i + 1) = total then
              { st2 with
                reports_file := some (batch_save st2.reports_file st2.all_data),
                all_data := [],
                events := st2.events ++ [Event.flush (i + 1)] }
            else st2
          scrape_loop world total rest st3
    else
      scrape_loop world total rest st

/-- Line 149: the `driver.quit()` after the loop.  It runs only when the
loop exits normally (completion or `break`); an uncaught exception from
the loop body propagates out of the function and skips it. -/
def final_quit (st : LoopState) : LoopState :=
  if st.crashed then st else { st with driver_quit := true }

/-- `scrape_erowid_reports(report_links)` (lines 45-149).  `setOrder`
models the unspecified iteration order of `list(set(...))` (line 58);
`fs` is the reports file found on disk at entry. -/
def scrape_erowid_reports (setOrder : List String → List String)
    (world : String → Fetch) (report_links : List String)
    (fs : Option (List Record)) : LoopState :=
  let scraped_links := file_links fs
  let pending :=
    (setOrder report_links).filter (fun link => !(scraped_links.contains link))
  let st0 : LoopState :=
    { all_data := [], processed_count := 0, scraped_links := scraped_links,
      reports_file := fs, events := [], driver_quit := false,
      crashed := false }
  let st := scrape_loop world pending.length pending.enum st0
  final_quit st

/-- The pending list a run iterates over: `list(set(report_links))`
filtered to links absent from the reports file (lines 58-59). -/
def pending_links (setOrder : List String → List String)
    (report_links : List String) (fs : Option (List Record)) : List String :=
  (setOrder report_links).filter (fun link => !((file_links fs).contains link))

/-- What Python guarantees about `list(set(xs))`: the result is
duplicate-free and has exactly the members of `xs`; the order is
unspecified. -/
def ValidSetOrder (f : List String → List String) : Prop :=
  ∀ l : List String, (f l).Nodup ∧ ∀ x : String, x ∈ f l ↔ x ∈ l

/-- `List.dedup` is one realisable `list(set(...))` order. -/
theorem validSetOrder_dedup : ValidSetOrder (fun l => l.dedup) :=
  fun l => ⟨l.nodup_dedup, fun _ => List.mem_dedup⟩

/-- Result of `get_all_report_links`: the returned link list, the links
file afterwards, and whether the start page was fetched. -/
structure CollectorResult where
  result : List String
  links_file : Option (List String)
  fetched : Bool
deriving DecidableEq

/-- `get_all_report_links(start_url)` (lines 19-43).  `links_file` is the
content of LINKS_FILE as a list of lines (`none` = absent);
`index_hrefs` are the hrefs of the anchor elements matching the XPath
`//a[contains(@href, 'exp.php?ID=')]` on the start page. -/
def get_all_report_links (setOrder : List String → List String)
    (links_file : Option (List String)) (index_hrefs : List String) :
    CollectorResult :=
  match links_file with
  | some lines =>
    { result := setOrder lines, links_file := some lines, fetched := false }
  | none =>
    let report_links :=
      index_hrefs.filter (fun h => strStartsWith h erowid_origin)
    let report_links := setOrder report_links
    { result := report_links, links_file := some report_links,
      fetched := true }

/-- Is an event a batch flush? -/
def is_flush : Event → Bool
  | Event.flush _ => true
  | _ => false

/-- One-based loop positions at which a batch flush happened, in order. -/
def flush_positions (es : List Event) : List Nat :=
  es.filterMap (fun e => match e with | Event.flush k => some k | _ => none)

/-- URLs passed to `driver.get`, in call order. -/
def visit_links (es : List Event) : List String :=
  es.filterMap (fun e => match e with | Event.visit h => some h | _ => none)

/-- A soup in which every extraction selector finds something. -/
def goodSoup : Soup :=
  { h2 := none, title_div := some " A Trip ", substance_div := some "LSD",
    author_div := some "by Someone", bodyweight_td := some "70 kg",
    dosechart_rows := [["a", "b", "c", "d", "e"]],
    report_text_div := some ["It was ", "fine."] }

/-- An ordinary report page: no ban signature, on-domain URL, extraction
succeeds. -/
def goodPage : Page :=
  { page_source := "report page",
    current_url := "https://www.erowid.org/experiences/exp.php?ID=1",
    soup := goodSoup, extraction_raises := false }

/-- The parsed ban page as the site actually serves it: the blocked
message sits in an `h2` element, so line 83 can pull the address out of
it. -/
def banSoup : Soup :=
  { emptySoup with
    h2 := some "403 Forbidden: Your IP Address Has Been Blocked: 10.0.0.7" }

/-- A page whose source carries the ban signature and whose document has
the expected `h2` element. -/
def banPage : Page :=
  { page_source :=
      "<h2>403 Forbidden: Your IP Address Has Been Blocked: 10.0.0.7</h2>",
    current_url := "https://www.erowid.org/experiences/exp.php?ID=9",
    soup := banSoup, extraction_raises := false }

/-- A page whose raw source carries the ban signature (line 82 matches
on the source string) but whose parsed document has no `h2` element:
line 83's `soup.find("h2").text` raises `AttributeError` on it. -/
def banPageNoH2 : Page :=
  { page_source :=
      "<p>403 Forbidden: Your IP Address Has Been Blocked: 10.0.0.7</p>",
    current_url := "https://www.erowid.org/experiences/exp.php?ID=9",
    soup := emptySoup, extraction_raises := false }

def linkA : String := "https://www.erowid.org/experiences/exp.php?ID=1"

def linkB : String := "https://www.erowid.org/experiences/exp.php?ID=2"

/-- A browser oracle that loads `goodPage` for every URL. -/
def worldGood : String → Fetch := fun _ => Fetch.loaded goodPage

/-- A browser oracle that times out on `linkB` and loads `goodPage`
elsewhere. -/
def worldBTimeout : String → Fetch :=
  fun h => if h = linkB then Fetch.timeout else Fetch.loaded goodPage

/-- The state change of one successful extraction at loop position
`i + 1` of `total`: record appended, counter bumped, link marked
scraped, followed by the batch-boundary save check of lines 133-145. -/
def success_update (total i : Nat) (href : String) (r : Record)
    (st : LoopState) : LoopState :=
  let st2 := { st with
    events := st.events ++ [Event.visit href],
    all_data := st.all_data ++ [r],
    processed_count := st.processed_count + 1,
    scraped_links := st.scraped_links ++ [href] }
  if (i + 1) % BATCH_SIZE = 0 ∨ (i + 1) = total then
    { st2 with
      reports_file := some (batch_save st2.reports_file st2.all_data),
      all_data := [],
      events := st2.events ++ [Event.flush (i + 1)] }
  else st2

theorem scrape_loop_cons_scraped (world : String → Fetch) (total i : Nat)
    (href : String) (rest : List (Nat × String)) (st : LoopState)
    (h : href ∈ st.scraped_links) :
    scrape_loop world total ((i, href) :: rest) st =
      scrape_loop world total rest st := by
  simp only [scrape_loop, if_pos h]

theorem scrape_loop_cons_invalid (world : String → Fetch) (total i : Nat)
    (href : String) (rest : List (Nat × String)) (st : LoopState)
    (h1 : href ∉ st.scraped_links)
    (h2 : strStartsWith href erowid_origin = false) :
    scrape_loop world total ((i, href) :: rest) st =
      scrape_loop world total rest st := by
  simp only [scrape_loop, if_neg h1, h2, Bool.false_eq_true, if_false]

theorem scrape_loop_cons_timeout (world : String → Fetch) (total i : Nat)
    (href : String) (rest : List (Nat × String)) (st : LoopState)
    (h1 : href ∉ st.scraped_links)
    (h2 : strStartsWith href erowid_origin = true)
    (h3 : world href = Fetch.timeout) :
    scrape_loop world total ((i, href) :: rest) st =
      scrape_loop world total rest
        { st with events := st.events ++ [Event.visit href] } := by
  simp only [scrape_loop, if_neg h1, h2, h3, if_true]

theorem scrape_loop_cons_ban (world : String → Fetch) (total i : Nat)
    (href : String) (rest : List (Nat × String)) (st : LoopState)
    (p : Page) (a : String)
    (h1 : href ∉ st.scraped_links)
    (h2 : strStartsWith href erowid_origin = true)
    (h3 : world href = Fetch.loaded p)
    (h4 : page_is_ban p = true)
    (h5 : p.soup.h2 = some a) :
    scrape_loop world total ((i, href) :: rest) st =
      { st with driver_quit := true,
                events := st.events ++ [Event.visit href, Event.banStop] } := by
  simp only [scrape_loop, if_neg h1, h2, h3, h4, h5, if_true,
    List.append_assoc, List.singleton_append]

theorem scrape_loop_cons_ban_crash (world : String → Fetch) (total i : Nat)
    (href : String) (rest : List (Nat × String)) (st : LoopState)
    (p : Page)
    (h1 : href ∉ st.scraped_links)
    (h2 : strStartsWith href erowid_origin = true)
    (h3 : world href = Fetch.loaded p)
    (h4 : page_is_ban p = true)
    (h5 : p.soup.h2 = none) :
    scrape_loop world total ((i, href) :: rest) st =
      { st with crashed := true,
                events := st.events ++ [Event.visit href] } := by
  simp only [scrape_loop, if_neg h1, h2, h3, h4, h5, if_true]

theorem scrape_loop_cons_external (world : String → Fetch) (total i : Nat)
    (href : String) (rest : List (Nat × String)) (st : LoopState)
    (p : Page)
    (h1 : href ∉ st.scraped_links)
    (h2 : strStartsWith href erowid_origin = true)
    (h3 : world href = Fetch.loaded p)
    (h4 : page_is_ban p = false)
    (h5 : url_is_external p.current_url = true) :
    scrape_loop world total ((i, href) :: rest) st =
      scrape_loop world total rest
        { st with events := st.events ++ [Event.visit href] } := by
  simp only [scrape_loop, if_neg h1, h2, h3, h4, h5, Bool.false_eq_true,
    if_false, if_true]

theorem scrape_loop_cons_raises (world : String → Fetch) (total i : Nat)
    (href : String) (rest : List (Nat × String)) (st : LoopState)
    (p : Page)
    (h1 : href ∉ st.scraped_links)
    (h2 : strStartsWith href erowid_origin = true)
    (h3 : world href = Fetch.loaded p)
    (h4 : page_is_ban p = false)
    (h5 : url_is_external p.current_url = false)
    (h6 : p.extraction_raises = true) :
    scrape_loop world total ((i, href) :: rest) st =
      scrape_loop world total rest
        { st with events := st.events ++ [Event.visit href] } := by
  simp only [scrape_loop, if_neg h1, h2, h3, h4, h5, h6, Bool.false_eq_true,
    if_false, if_true]

theorem scrape_loop_cons_success (world : String → Fetch) (total i : Nat)
    (href : String) (rest : List (Nat × String)) (st : LoopState)
    (p : Page)
    (h1 : href ∉ st.scraped_links)
    (h2 : strStartsWith href erowid_origin = true)
    (h3 : world href = Fetch.loaded p)
    (h4 : page_is_ban p = false)
    (h5 : url_is_external p.current_url = false)
    (h6 : p.extraction_raises = false) :
    scrape_loop world total ((i, href) :: rest) st =
      scrape_loop world total rest
        (success_update total i href (extract_fields p.soup href) st) := by
  simp only [scrape_loop, success_update, if_neg h1, h2, h3, h4, h5, h6,
    Bool.false_eq_true, if_false, if_true]

/-- Counterexample to claim C3: a run over two pending links whose second
(final) fetch times out.  One new record is produced, yet zero batch
flushes happen — in particular no flush on final completion, and the
extracted record never reaches the reports file (which still does not
exist afterwards).  The `timeout` branch's `continue` skips the
batch-save check of line 134, so a flush is not a function of the count
of successful extractions.  The final `Nodup` conjunct certifies that
the identity order used for `list(set(...))` is realisable on this
input. -/
theorem no_flush_on_final_completion :
    (scrape_erowid_reports (fun l => l) worldBTimeout [linkA, linkB]
        none).processed_count = 1 ∧
    flush_positions (scrape_erowid_reports (fun l => l) worldBTimeout
        [linkA, linkB] none).events = [] ∧
    (scrape_erowid_reports (fun l => l) worldBTimeout [linkA, linkB]
        none).reports_file = none ∧
    [linkA, linkB].Nodup := by
  decide

/-- `scrape_erowid_reports` unfolded: run the loop over the enumerated
pending list from the initial state, then the final `driver.quit()` of
line 149 (skipped when the loop aborted with an uncaught exception). -/
theorem scrape_erowid_reports_def (setOrder : List String → List String)
    (world : String → Fetch) (report_links : List String)
    (fs : Option (List Record)) :
    scrape_erowid_reports setOrder world report_links fs =
      final_quit
        (scrape_loop world (pending_links setOrder report_links fs).length
          (pending_links setOrder report_links fs).enum
          { all_data := [], processed_count := 0,
            scraped_links := file_links fs, reports_file := fs,
            events := [], driver_quit := false, crashed := false }) := rfl

theorem final_quit_reports_file (st : LoopState) :
    (final_quit st).reports_file = st.reports_file := by
  unfold final_quit
  split <;> rfl

theorem final_quit_scraped_links (st : LoopState) :
    (final_quit st).scraped_links = st.scraped_links := by
  unfold final_quit
  split <;> rfl

theorem final_quit_events (st : LoopState) :
    (final_quit st).events = st.events := by
  unfold final_quit
  split <;> rfl

/-- Claim C4: when every input link already appears in the `Link` column
of the existing reports table, the pre-loop filter empties the pending
list, so the run processes zero links (no events at all) and leaves the
reports file unchanged. -/
theorem already_scraped_run_is_noop (setOrder : List String → List String)
    (world : String → Fetch) (report_links : List String) (df : List Record)
    (hsub : ∀ x, x ∈ setOrder report_links → x ∈ report_links)
    (hall : ∀ link ∈ report_links, link ∈ df.map Record.Link) :
    scrape_erowid_reports setOrder world report_links (some df) =
      { all_data := [], processed_count := 0,
        scraped_links := df.map Record.Link, reports_file := some df,
        events := [], driver_quit := true, crashed := false } := by
  rw [scrape_erowid_reports_def]
  have hpend : pending_links setOrder report_links (some df) = [] := by
    unfold pending_links
    refine List.filter_eq_nil_iff.mpr ?_
    intro a ha
    have hm : a ∈ df.map Record.Link := hall a (hsub a ha)
    simp [file_links, hm]
  rw [hpend]
  rfl

/-- Amended claim C5: when the fetched page carries the ban signature,
the loop terminates at once — its result does not depend on any of the
remaining links, so no further link is fetched or extracted.  Whether
the browser is released depends on the parsed page: if it has an `h2`
element (as the real ban page does), line 83 extracts the address from
it, `driver.quit()` runs (line 86) and the run ends normally with the
ban stop logged; if it has no `h2` element, line 83's unguarded
`soup.find("h2").text` raises `AttributeError` before `driver.quit()`,
so the run aborts with the browser still held and the process exits
abnormally. -/
theorem ban_stops_run (world : String → Fetch) (total i : Nat)
    (href : String) (rest : List (Nat × String)) (st : LoopState) (p : Page)
    (h1 : href ∉ st.scraped_links)
    (h2 : strStartsWith href erowid_origin = true)
    (h3 : world href = Fetch.loaded p)
    (h4 : page_is_ban p = true) :
    (∀ rest2 : List (Nat × String),
      scrape_loop world total ((i, href) :: rest) st =
        scrape_loop world total ((i, href) :: rest2) st) ∧
    (∀ a : String, p.soup.h2 = some a →
      (scrape_loop world total ((i, href) :: rest) st).driver_quit = true ∧
      (scrape_loop world total ((i, href) :: rest) st).events =
        st.events ++ [Event.visit href, Event.banStop]) ∧
    (p.soup.h2 = none →
      (scrape_loop world total ((i, href) :: rest) st).crashed = true ∧
      (scrape_loop world total ((i, href) :: rest) st).driver_quit =
        st.driver_quit) := by
  refine ⟨fun rest2 => ?_, fun a h5 => ?_, fun h5 => ?_⟩
  · cases hh2 : p.soup.h2 with
    | none =>
      rw [scrape_loop_cons_ban_crash world total i href rest st p h1 h2 h3
          h4 hh2,
        scrape_loop_cons_ban_crash world total i href rest2 st p h1 h2 h3
          h4 hh2]
    | some a =>
      rw [scrape_loop_cons_ban world total i href rest st p a h1 h2 h3 h4
          hh2,
        scrape_loop_cons_ban world total i href rest2 st p a h1 h2 h3 h4
          hh2]
  · rw [scrape_loop_cons_ban world total i href rest st p a h1 h2 h3 h4 h5]
    exact ⟨rfl, rfl⟩
  · rw [scrape_loop_cons_ban_crash world total i href rest st p h1 h2 h3 h4
      h5]
    exact ⟨rfl, rfl⟩

/-- A browser oracle that serves the banned page for every URL. -/
def worldBan : String → Fetch := fun _ => Fetch.loaded banPage

/-- The loop state at the top of a run that found no reports file. -/
def stInit : LoopState :=
  { all_data := [], processed_count := 0, scraped_links := [],
    reports_file := none, events := [], driver_quit := false,
    crashed := false }

/-- Witness for amended C5: a concrete two-link run whose first page is
the banned page (with its `h2`) never looks at the second link and stops
with the browser released. -/
theorem ban_stops_run_witness :
    scrape_loop worldBan 2 [(0, linkA), (1, linkB)] stInit =
      scrape_loop worldBan 2 [(0, linkA)] stInit ∧
    (scrape_loop worldBan 2 [(0, linkA), (1, linkB)] stInit).driver_quit =
      true := by
  have h := ban_stops_run worldBan 2 0 linkA [(1, linkB)] stInit banPage
    (by decide) (by decide) rfl (by decide)
  exact ⟨h.1 [], (h.2.1 _ rfl).1⟩

/-- Counterexample to claim C5 as originally stated: on a page whose raw
source carries the ban signature but whose document has no `h2` element,
line 83 raises `AttributeError` before `driver.quit()`, so the run stops
with the browser NOT released and the process exits abnormally — the
browser release is not guaranteed on every ban detection. -/
theorem ban_without_h2_not_released :
    page_is_ban banPageNoH2 = true ∧
    banPageNoH2.soup.h2 = none ∧
    (scrape_erowid_reports (fun l => l) (fun _ => Fetch.loaded banPageNoH2)
        [linkA] none).crashed = true ∧
    (scrape_erowid_reports (fun l => l) (fun _ => Fetch.loaded banPageNoH2)
        [linkA] none).driver_quit = false := by
  decide

theorem mem_links_batch_save {x : String} (file : Option (List Record))
    (batch : List Record)
    (h : x ∈ (batch_save file batch).map Record.Link) :
    x ∈ file_links file ∨ x ∈ batch.map Record.Link := by
  rcases List.mem_map.mp h with ⟨r, hr, hx⟩
  cases file with
  | none =>
    exact Or.inr
      (hx ▸ List.mem_map_of_mem Record.Link (mem_of_mem_dedupAux batch [] hr))
  | some existing =>
    have hmem := mem_of_mem_dedupAux (existing ++ batch) [] hr
    rcases List.mem_append.mp hmem with h2 | h2
    · exact Or.inl (hx ▸ List.mem_map_of_mem Record.Link h2)
    · exact Or.inr (hx ▸ List.mem_map_of_mem Record.Link h2)

/-- Links buffered in `all_data` are marked scraped, everything in the
reports file is marked scraped, and nothing buffered is already in the
file.  This holds at the start of a run and is preserved by the loop. -/
def BufferDisjoint (st : LoopState) : Prop :=
  (∀ r ∈ st.all_data, r.Link ∈ st.scraped_links) ∧
  (∀ x ∈ file_links st.reports_file, x ∈ st.scraped_links) ∧
  ∀ r ∈ st.all_data, r.Link ∉ file_links st.reports_file

theorem bufferDisjoint_start (fs : Option (List Record)) :
    BufferDisjoint
      { all_data := [], processed_count := 0, scraped_links := file_links fs,
        reports_file := fs, events := [], driver_quit := false,
        crashed := false } :=
  ⟨fun r hr => absurd hr (List.not_mem_nil r),
   fun _ hx => hx,
   fun r hr => absurd hr (List.not_mem_nil r)⟩

theorem bufferDisjoint_success_update (total i : Nat) (href : String)
    (r : Record) (st : LoopState)
    (hlink : r.Link = href)
    (h1 : href ∉ st.scraped_links)
    (h : BufferDisjoint st) :
    BufferDisjoint (success_update total i href r st) := by
  unfold success_update
  by_cases hc : (i + 1) % BATCH_SIZE = 0 ∨ (i + 1) = total
  · rw [if_pos hc]
    refine ⟨fun r2 hr2 => absurd hr2 (List.not_mem_nil r2), ?_,
      fun r2 hr2 => absurd hr2 (List.not_mem_nil r2)⟩
    intro x hx
    rcases mem_links_batch_save st.reports_file (st.all_data ++ [r]) hx with
      h2 | h2
    · exact List.mem_append_left _ (h.2.1 x h2)
    · rcases List.mem_map.mp h2 with ⟨r2, hr2, hxeq⟩
      rcases List.mem_append.mp hr2 with h3 | h3
      · exact List.mem_append_left _ (hxeq ▸ h.1 r2 h3)
      · have : r2 = r := List.mem_singleton.mp h3
        subst this
        exact List.mem_append_right _
          (hxeq ▸ hlink ▸ List.mem_singleton.mpr rfl)
  · rw [if_neg hc]
    refine ⟨?_, ?_, ?_⟩
    · intro r2 hr2
      rcases List.mem_append.mp hr2 with h3 | h3
      · exact List.mem_append_left _ (h.1 r2 h3)
      · have : r2 = r := List.mem_singleton.mp h3
        subst this
        exact List.mem_append_right _ (hlink ▸ List.mem_singleton.mpr rfl)
    · intro x hx
      exact List.mem_append_left _ (h.2.1 x hx)
    · intro r2 hr2
      rcases List.mem_append.mp hr2 with h3 | h3
      · exact h.2.2 r2 h3
      · intro hmem
        have hr2r : r2 = r := List.mem_singleton.mp h3
        rw [hr2r, hlink] at hmem
        exact h1 (h.2.1 href hmem)

theorem scrape_loop_preserves_bufferDisjoint (world : String → Fetch)
    (total : Nat) :
    ∀ (l : List (Nat × String)) (st : LoopState),
      BufferDisjoint st → BufferDisjoint (scrape_loop world total l st)
  | [], _, h => h
  | (i, href) :: rest, st, h => by
    by_cases h1 : href ∈ st.scraped_links
    · rw [scrape_loop_cons_scraped world total i href rest st h1]
      exact scrape_loop_preserves_bufferDisjoint world total rest st h
    · cases hsw : strStartsWith href erowid_origin with
      | false =>
        rw [scrape_loop_cons_invalid world total i href rest st h1 hsw]
        exact scrape_loop_preserves_bufferDisjoint world total rest st h
      | true =>
        cases hw : world href with
        | timeout =>
          rw [scrape_loop_cons_timeout world total i href rest st h1 hsw hw]
          exact scrape_loop_preserves_bufferDisjoint world total rest _
            ⟨h.1, h.2.1, h.2.2⟩
        | loaded p =>
          cases hban : page_is_ban p with
          | true =>
            cases hh2 : p.soup.h2 with
            | none =>
              rw [scrape_loop_cons_ban_crash world total i href rest st p h1
                hsw hw hban hh2]
              exact ⟨h.1, h.2.1, h.2.2⟩
            | some a =>
              rw [scrape_loop_cons_ban world total i href rest st p a h1 hsw
                hw hban hh2]
              exact ⟨h.1, h.2.1, h.2.2⟩
          | false =>
            cases hext : url_is_external p.current_url with
            | true =>
              rw [scrape_loop_cons_external world total i href rest st p h1
                hsw hw hban hext]
              exact scrape_loop_preserves_bufferDisjoint world total rest _
                ⟨h.1, h.2.1, h.2.2⟩
            | false =>
              cases hrai : p.extraction_raises with
              | true =>
                rw [scrape_loop_cons_raises world total i href rest st p h1
                  hsw hw hban hext hrai]
                exact scrape_loop_preserves_bufferDisjoint world total rest _
                  ⟨h.1, h.2.1, h.2.2⟩
              | false =>
                rw [scrape_loop_cons_success world total i href rest st p h1
                  hsw hw hban hext hrai]
                exact scrape_loop_preserves_bufferDisjoint world total rest _
                  (bufferDisjoint_success_update total i href
                    (extract_fields p.soup href) st rfl h1 h)

/-- Claim C10: when the ban signature is detected, the loop breaks before
the batch-save step, so the reports file stays exactly what the last
flush left, and no record buffered since that flush (the current
`all_data`) is ever written to it.  `BufferDisjoint` holds at the start
of every run (`bufferDisjoint_start`) and is preserved by every loop
step (`scrape_loop_preserves_bufferDisjoint`), so it holds at each state
from which a ban can be hit.  The conclusion holds on both ban
sub-paths: the clean break of line 87 and the line 83 `AttributeError`
abort on a page without an `h2` element — neither reaches the
batch-save step. -/
theorem ban_discards_buffer (world : String → Fetch) (total i : Nat)
    (href : String) (rest : List (Nat × String)) (st : LoopState) (p : Page)
    (hinv : BufferDisjoint st)
    (h1 : href ∉ st.scraped_links)
    (h2 : strStartsWith href erowid_origin = true)
    (h3 : world href = Fetch.loaded p)
    (h4 : page_is_ban p = true) :
    (scrape_loop world total ((i, href) :: rest) st).reports_file =
      st.reports_file ∧
    ∀ r ∈ st.all_data,
      r.Link ∉
        file_links (scrape_loop world total ((i, href) :: rest) st).reports_file := by
  cases hh2 : p.soup.h2 with
  | none =>
    rw [scrape_loop_cons_ban_crash world total i href rest st p h1 h2 h3 h4
      hh2]
    exact ⟨rfl, hinv.2.2⟩
  | some a =>
    rw [scrape_loop_cons_ban world total i href rest st p a h1 h2 h3 h4 hh2]
    exact ⟨rfl, hinv.2.2⟩

def linkC : String := "https://www.erowid.org/experiences/exp.php?ID=3"

/-- A mid-run state: `rowA` was flushed to the file earlier, `rowB` sits
in the buffer awaiting the next flush. -/
def stBuf : LoopState :=
  { all_data := [rowB], processed_count := 2,
    scraped_links := [rowA.Link, rowB.Link], reports_file := some [rowA],
    events := [], driver_quit := false, crashed := false }

/-- Witness for C10: hitting the ban from `stBuf` leaves the file at
`[rowA]` and the buffered `rowB` is never written. -/
theorem ban_discards_buffer_witness :
    (scrape_loop worldBan 3 [(2, linkC)] stBuf).reports_file = some [rowA] ∧
    rowB.Link ∉ file_links (scrape_loop worldBan 3 [(2, linkC)] stBuf).reports_file := by
  have h := ban_discards_buffer worldBan 3 2 linkC [] stBuf banPage
    ⟨by decide, by decide, by decide⟩ (by decide) (by decide) rfl (by decide)
  exact ⟨h.1, h.2 rowB (List.mem_singleton.mpr rfl)⟩

/-- Witness for C4: a concrete run whose two input links are both in the
table is a no-op on the table and processes nothing. -/
theorem already_scraped_run_is_noop_witness :
    scrape_erowid_reports (fun l => l.dedup) worldGood
        [rowA.Link, rowB.Link] (some [rowA, rowB]) =
      { all_data := [], processed_count := 0,
        scraped_links := [rowA, rowB].map Record.Link,
        reports_file := some [rowA, rowB], events := [],
        driver_quit := true, crashed := false } :=
  already_scraped_run_is_noop (fun l => l.dedup) worldGood
    [rowA.Link, rowB.Link] [rowA, rowB]
    (fun _ hx => List.mem_dedup.mp hx) (by decide)

theorem success_update_keeps_absent (total i : Nat) (href href2 : String)
    (r : Record) (st : LoopState)
    (hlink : r.Link = href2) (hne : href2 ≠ href)
    (hs : href ∉ st.scraped_links)
    (hf : href ∉ file_links st.reports_file)
    (hb : href ∉ st.all_data.map Record.Link) :
    href ∉ (success_update total i href2 r st).scraped_links ∧
    href ∉ file_links (success_update total i href2 r st).reports_file ∧
    href ∉ (success_update total i href2 r st).all_data.map Record.Link := by
  unfold success_update
  by_cases hc : (i + 1) % BATCH_SIZE = 0 ∨ (i + 1) = total
  · rw [if_pos hc]
    refine ⟨?_, ?_, ?_⟩
    · intro hmem
      rcases List.mem_append.mp hmem with h2 | h2
      · exact hs h2
      · exact hne (List.mem_singleton.mp h2).symm
    · intro hmem
      rcases mem_links_batch_save st.reports_file (st.all_data ++ [r])
        hmem with h2 | h2
      · exact hf h2
      · rw [List.map_append] at h2
        rcases List.mem_append.mp h2 with h3 | h3
        · exact hb h3
        · have h4 : href = r.Link := by simpa using h3
          exact hne (hlink ▸ h4.symm)
    · intro hmem
      exact absurd hmem (by simp)
  · rw [if_neg hc]
    refine ⟨?_, ?_, ?_⟩
    · intro hmem
      rcases List.mem_append.mp hmem with h2 | h2
      · exact hs h2
      · exact hne (List.mem_singleton.mp h2).symm
    · exact hf
    · intro hmem
      rw [List.map_append] at hmem
      rcases List.mem_append.mp hmem with h3 | h3
      · exact hb h3
      · have h4 : href = r.Link := by simpa using h3
        exact hne (hlink ▸ h4.symm)

theorem scrape_loop_timeout_keeps_absent (world : String → Fetch)
    (total : Nat) (href : String) (ht : world href = Fetch.timeout) :
    ∀ (l : List (Nat × String)) (st : LoopState),
      href ∉ st.scraped_links →
      href ∉ file_links st.reports_file →
      href ∉ st.all_data.map Record.Link →
      href ∉ (scrape_loop world total l st).scraped_links ∧
      href ∉ file_links (scrape_loop world total l st).reports_file ∧
      href ∉ (scrape_loop world total l st).all_data.map Record.Link
  | [], _, hs, hf, hb => ⟨hs, hf, hb⟩
  | (i, href2) :: rest, st, hs, hf, hb => by
    by_cases h1 : href2 ∈ st.scraped_links
    · rw [scrape_loop_cons_scraped world total i href2 rest st h1]
      exact scrape_loop_timeout_keeps_absent world total href ht rest st hs
        hf hb
    · cases hsw : strStartsWith href2 erowid_origin with
      | false =>
        rw [scrape_loop_cons_invalid world total i href2 rest st h1 hsw]
        exact scrape_loop_timeout_keeps_absent world total href ht rest st hs
          hf hb
      | true =>
        cases hw : world href2 with
        | timeout =>
          rw [scrape_loop_cons_timeout world total i href2 rest st h1 hsw hw]
          exact scrape_loop_timeout_keeps_absent world total href ht rest _ hs
            hf hb
        | loaded p =>
          have hne : href2 ≠ href := by
            intro he
            rw [he, ht] at hw
            exact Fetch.noConfusion hw
          cases hban : page_is_ban p with
          | true =>
            cases hh2 : p.soup.h2 with
            | none =>
              rw [scrape_loop_cons_ban_crash world total i href2 rest st p
                h1 hsw hw hban hh2]
              exact ⟨hs, hf, hb⟩
            | some a =>
              rw [scrape_loop_cons_ban world total i href2 rest st p a h1
                hsw hw hban hh2]
              exact ⟨hs, hf, hb⟩
          | false =>
            cases hext : url_is_external p.current_url with
            | true =>
              rw [scrape_loop_cons_external world total i href2 rest st p h1
                hsw hw hban hext]
              exact scrape_loop_timeout_keeps_absent world total href ht rest
                _ hs hf hb
            | false =>
              cases hrai : p.extraction_raises with
              | true =>
                rw [scrape_loop_cons_raises world total i href2 rest st p h1
                  hsw hw hban hext hrai]
                exact scrape_loop_timeout_keeps_absent world total href ht
                  rest _ hs hf hb
              | false =>
                rw [scrape_loop_cons_success world total i href2 rest st p h1
                  hsw hw hban hext hrai]
                have hkeep := success_update_keeps_absent total i href href2
                  (extract_fields p.soup href2) st rfl hne hs hf hb
                exact scrape_loop_timeout_keeps_absent world total href ht
                  rest _ hkeep.1 hkeep.2.1 hkeep.2.2

/-- Claim C6: a link whose fetch times out is skipped without aborting
the run: no record for it is ever added to the reports table, and it is
not marked as scraped, so it is still pending for future runs (a later
run's pre-loop filter keeps any link absent from the table's `Link`
column). -/
theorem timeout_link_stays_pending (setOrder : List String → List String)
    (world : String → Fetch) (report_links : List String)
    (fs : Option (List Record)) (href : String)
    (ht : world href = Fetch.timeout)
    (h0 : href ∉ file_links fs) :
    href ∉
      file_links
        (scrape_erowid_reports setOrder world report_links fs).reports_file ∧
    href ∉ (scrape_erowid_reports setOrder world report_links fs).scraped_links := by
  rw [scrape_erowid_reports_def, final_quit_reports_file,
    final_quit_scraped_links]
  have h := scrape_loop_timeout_keeps_absent world
    (pending_links setOrder report_links fs).length href ht
    (pending_links setOrder report_links fs).enum
    { all_data := [], processed_count := 0, scraped_links := file_links fs,
      reports_file := fs, events := [], driver_quit := false,
      crashed := false }
    h0 h0 (by simp)
  exact ⟨h.2.1, h.1⟩

/-- Witness for C6: in the concrete run where the fetch of `linkB` times
out, `linkB` is in neither the resulting table nor the scraped set. -/
theorem timeout_link_stays_pending_witness :
    linkB ∉
      file_links
        (scrape_erowid_reports (fun l => l) worldBTimeout [linkA, linkB]
          none).reports_file ∧
    linkB ∉
      (scrape_erowid_reports (fun l => l) worldBTimeout [linkA, linkB]
        none).scraped_links :=
  timeout_link_stays_pending (fun l => l) worldBTimeout [linkA, linkB] none
    linkB (by decide) (by decide)

/-- A loop iteration on `href` reaches the record-append (and hence the
batch-save check): the fetch loads, the page is not the ban page, the
URL did not go off-domain, and extraction does not raise. -/
def link_succeeds (world : String → Fetch) (href : String) : Bool :=
  strStartsWith href erowid_origin &&
    match world href with
    | Fetch.timeout => false
    | Fetch.loaded p =>
      !(page_is_ban p) && !(url_is_external p.current_url) &&
        !(p.extraction_raises)

/-- The batch-save condition of line 134 for the enumerated link `q`,
combined with reaching it at all: extraction succeeds and the one-based
loop position divides BATCH_SIZE or is the last one. -/
def flush_here (world : String → Fetch) (total : Nat) (q : Nat × String) :
    Bool :=
  link_succeeds world q.snd &&
    (decide ((q.fst + 1) % BATCH_SIZE = 0) || decide (q.fst + 1 = total))

theorem flush_positions_append (a b : List Event) :
    flush_positions (a ++ b) = flush_positions a ++ flush_positions b :=
  List.filterMap_append a b _

theorem visit_links_append (a b : List Event) :
    visit_links (a ++ b) = visit_links a ++ visit_links b :=
  List.filterMap_append a b _

theorem success_update_scraped (total i : Nat) (href : String) (r : Record)
    (st : LoopState) :
    (success_update total i href r st).scraped_links =
      st.scraped_links ++ [href] := by
  unfold success_update
  by_cases hc : (i + 1) % BATCH_SIZE = 0 ∨ (i + 1) = total
  · rw [if_pos hc]
  · rw [if_neg hc]

theorem success_update_events (total i : Nat) (href : String) (r : Record)
    (st : LoopState) :
    (success_update total i href r st).events =
      if (i + 1) % BATCH_SIZE = 0 ∨ (i + 1) = total then
        st.events ++ [Event.visit href, Event.flush (i + 1)]
      else st.events ++ [Event.visit href] := by
  unfold success_update
  by_cases hc : (i + 1) % BATCH_SIZE = 0 ∨ (i + 1) = total
  · rw [if_pos hc, if_pos hc]
    simp
  · rw [if_neg hc, if_neg hc]

theorem scrape_loop_flush_positions (world : String → Fetch) (total : Nat)
    (hnb : ∀ (href : String) (p : Page),
      world href = Fetch.loaded p → page_is_ban p = false) :
    ∀ (l : List (Nat × String)) (st : LoopState),
      (l.map Prod.snd).Nodup →
      (∀ q ∈ l, q.snd ∉ st.scraped_links) →
      flush_positions (scrape_loop world total l st).events =
        flush_positions st.events ++
          (l.filter (flush_here world total)).map (fun q => q.fst + 1)
  | [], st, _, _ => by
    rw [show scrape_loop world total [] st = st from rfl]
    simp
  | (i, href) :: rest, st, hnd, hns => by
    have h1 : href ∉ st.scraped_links :=
      hns (i, href) (List.mem_cons_self _ _)
    have hndr : (rest.map Prod.snd).Nodup := by
      rw [List.map_cons] at hnd
      exact hnd.of_cons
    have hnsr : ∀ q ∈ rest, q.snd ∉ st.scraped_links :=
      fun q hq => hns q (List.mem_cons_of_mem _ hq)
    cases hsw : strStartsWith href erowid_origin with
    | false =>
      rw [scrape_loop_cons_invalid world total i href rest st h1 hsw]
      have hcond : flush_here world total (i, href) = false := by
        simp [flush_here, link_succeeds, hsw]
      rw [scrape_loop_flush_positions world total hnb rest st hndr hnsr,
        List.filter_cons_of_neg (by simp [hcond])]
    | true =>
      cases hw : world href with
      | timeout =>
        rw [scrape_loop_cons_timeout world total i href rest st h1 hsw hw]
        have hcond : flush_here world total (i, href) = false := by
          simp [flush_here, link_succeeds, hsw, hw]
        rw [scrape_loop_flush_positions world total hnb rest
            { st with events := st.events ++ [Event.visit href] } hndr hnsr,
          List.filter_cons_of_neg (by simp [hcond]), flush_positions_append]
        simp [flush_positions]
      | loaded p =>
        have hban : page_is_ban p = false := hnb href p hw
        cases hext : url_is_external p.current_url with
        | true =>
          rw [scrape_loop_cons_external world total i href rest st p h1 hsw
            hw hban hext]
          have hcond : flush_here world total (i, href) = false := by
            simp [flush_here, link_succeeds, hsw, hw, hban, hext]
          rw [scrape_loop_flush_positions world total hnb rest
              { st with events := st.events ++ [Event.visit href] } hndr hnsr,
            List.filter_cons_of_neg (by simp [hcond]), flush_positions_append]
          simp [flush_positions]
        | false =>
          cases hrai : p.extraction_raises with
          | true =>
            rw [scrape_loop_cons_raises world total i href rest st p h1 hsw
              hw hban hext hrai]
            have hcond : flush_here world total (i, href) = false := by
              simp [flush_here, link_succeeds, hsw, hw, hban, hext, hrai]
            rw [scrape_loop_flush_positions world total hnb rest
                { st with events := st.events ++ [Event.visit href] } hndr hnsr,
              List.filter_cons_of_neg (by simp [hcond]),
              flush_positions_append]
            simp [flush_positions]
          | false =>
            rw [scrape_loop_cons_success world total i href rest st p h1 hsw
              hw hban hext hrai]
            have hsucc : link_succeeds world href = true := by
              simp [link_succeeds, hsw, hw, hban, hext, hrai]
            have hnr : href ∉ rest.map Prod.snd := by
              rw [List.map_cons] at hnd
              exact (List.nodup_cons.mp hnd).1
            have hnsr2 : ∀ q ∈ rest,
                q.snd ∉ (success_update total i href
                  (extract_fields p.soup href) st).scraped_links := by
              intro q hq
              rw [success_update_scraped]
              intro hmem
              rcases List.mem_append.mp hmem with h2 | h2
              · exact hnsr q hq h2
              · exact hnr ((List.mem_singleton.mp h2) ▸
                  List.mem_map_of_mem Prod.snd hq)
            rw [scrape_loop_flush_positions world total hnb rest _ hndr hnsr2,
              success_update_events]
            by_cases hc : (i + 1) % BATCH_SIZE = 0 ∨ (i + 1) = total
            · rw [if_pos hc]
              have hcond : flush_here world total (i, href) = true := by
                rcases hc with hc | hc <;> simp [flush_here, hsucc, hc]
              rw [List.filter_cons_of_pos (by simp [hcond]),
                flush_positions_append]
              simp [flush_positions]
            · rw [if_neg hc]
              have hcond : flush_here world total (i, href) = false := by
                rw [not_or] at hc
                simp [flush_here, hsucc, hc.1, hc.2]
              rw [List.filter_cons_of_neg (by simp [hcond]),
                flush_positions_append]
              simp [flush_positions]

theorem scrape_loop_visit_links (world : String → Fetch) (total : Nat)
    (hnb : ∀ (href : String) (p : Page),
      world href = Fetch.loaded p → page_is_ban p = false) :
    ∀ (l : List (Nat × String)) (st : LoopState),
      (l.map Prod.snd).Nodup →
      (∀ q ∈ l, q.snd ∉ st.scraped_links) →
      visit_links (scrape_loop world total l st).events =
        visit_links st.events ++
          (l.map Prod.snd).filter (fun h => strStartsWith h erowid_origin)
  | [], st, _, _ => by
    rw [show scrape_loop world total [] st = st from rfl]
    simp
  | (i, href) :: rest, st, hnd, hns => by
    have h1 : href ∉ st.scraped_links :=
      hns (i, href) (List.mem_cons_self _ _)
    have hndr : (rest.map Prod.snd).Nodup := by
      rw [List.map_cons] at hnd
      exact hnd.of_cons
    have hnsr : ∀ q ∈ rest, q.snd ∉ st.scraped_links :=
      fun q hq => hns q (List.mem_cons_of_mem _ hq)
    cases hsw : strStartsWith href erowid_origin with
    | false =>
      rw [scrape_loop_cons_invalid world total i href rest st h1 hsw]
      rw [scrape_loop_visit_links world total hnb rest st hndr hnsr,
        List.map_cons, List.filter_cons_of_neg (by simp [hsw])]
    | true =>
      cases hw : world href with
      | timeout =>
        rw [scrape_loop_cons_timeout world total i href rest st h1 hsw hw]
        rw [scrape_loop_visit_links world total hnb rest
            { st with events := st.events ++ [Event.visit href] } hndr hnsr,
          List.map_cons, List.filter_cons_of_pos (by simp [hsw]),
          visit_links_append]
        simp [visit_links]
      | loaded p =>
        have hban : page_is_ban p = false := hnb href p hw
        cases hext : url_is_external p.current_url with
        | true =>
          rw [scrape_loop_cons_external world total i href rest st p h1 hsw
            hw hban hext]
          rw [scrape_loop_visit_links world total hnb rest
              { st with events := st.events ++ [Event.visit href] } hndr hnsr,
            List.map_cons, List.filter_cons_of_pos (by simp [hsw]),
            visit_links_append]
          simp [visit_links]
        | false =>
          cases hrai : p.extraction_raises with
          | true =>
            rw [scrape_loop_cons_raises world total i href rest st p h1 hsw
              hw hban hext hrai]
            rw [scrape_loop_visit_links world total hnb rest
                { st with events := st.events ++ [Event.visit href] } hndr
                hnsr,
              List.map_cons, List.filter_cons_of_pos (by simp [hsw]),
              visit_links_append]
            simp [visit_links]
          | false =>
            rw [scrape_loop_cons_success world total i href rest st p h1 hsw
              hw hban hext hrai]
            have hnr : href ∉ rest.map Prod.snd := by
              rw [List.map_cons] at hnd
              exact (List.nodup_cons.mp hnd).1
            have hnsr2 : ∀ q ∈ rest,
                q.snd ∉ (success_update total i href
                  (extract_fields p.soup href) st).scraped_links := by
              intro q hq
              rw [success_update_scraped]
              intro hmem
              rcases List.mem_append.mp hmem with h2 | h2
              · exact hnsr q hq h2
              · exact hnr ((List.mem_singleton.mp h2) ▸
                  List.mem_map_of_mem Prod.snd hq)
            rw [scrape_loop_visit_links world total hnb rest _ hndr hnsr2,
              success_update_events, List.map_cons,
              List.filter_cons_of_pos (by simp [hsw])]
            by_cases hc : (i + 1) % BATCH_SIZE = 0 ∨ (i + 1) = total
            · rw [if_pos hc, visit_links_append]
              simp [visit_links]
            · rw [if_neg hc, visit_links_append]
              simp [visit_links]

theorem snd_mem_of_mem_enumFrom {α : Type} {q : Nat × α} :
    ∀ (l : List α) (n : Nat), q ∈ l.enumFrom n → q.snd ∈ l
  | [], _, h => absurd h (List.not_mem_nil q)
  | x :: xs, n, h => by
    rcases List.mem_cons.mp h with h1 | h1
    · rw [h1]
      exact List.mem_cons_self x xs
    · exact List.mem_cons_of_mem x (snd_mem_of_mem_enumFrom xs (n + 1) h1)

theorem pending_links_nodup (setOrder : List String → List String)
    (report_links : List String) (fs : Option (List Record))
    (hnd : (setOrder report_links).Nodup) :
    (pending_links setOrder report_links fs).Nodup :=
  hnd.filter _

theorem pending_links_not_scraped (setOrder : List String → List String)
    (report_links : List String) (fs : Option (List Record)) (x : String)
    (hx : x ∈ pending_links setOrder report_links fs) :
    x ∉ file_links fs := by
  have h2 := (List.mem_filter.mp hx).2
  intro hmem
  have h3 : (file_links fs).contains x = true :=
    List.elem_eq_true_of_mem hmem
  rw [h3] at h2
  exact absurd h2 (by decide)

/-- Amended claim C3: a batch flush happens exactly at the one-based loop
positions k over the pending list (the deduplicated input minus
already-scraped links) at which the k-th pending link extracts
successfully and k is a multiple of BATCH_SIZE = 100 or k equals the
pending-list length.  The check at line 134 counts loop iterations, not
successful extractions, and every skip path (`continue`) bypasses it, so
a flush is not triggered every N successful extractions, and the
final-completion flush happens only when the last pending link itself
extracts successfully (a run can complete with new records and no flush
at all).  A run of 250 pending links
that all extract successfully flushes exactly at positions 100, 200 and
250 by this formula.  Stated for runs in which no fetched page carries
the ban signature. -/
theorem flushes_exactly_at_batch_boundaries
    (setOrder : List String → List String) (world : String → Fetch)
    (report_links : List String) (fs : Option (List Record))
    (hnd : (setOrder report_links).Nodup)
    (hnb : ∀ (href : String) (p : Page),
      world href = Fetch.loaded p → page_is_ban p = false) :
    flush_positions
        (scrape_erowid_reports setOrder world report_links fs).events =
      ((pending_links setOrder report_links fs).enum.filter
        (flush_here world
          (pending_links setOrder report_links fs).length)).map
        (fun q => q.fst + 1) := by
  rw [scrape_erowid_reports_def]
  have hsnd : (pending_links setOrder report_links fs).enum.map Prod.snd =
      pending_links setOrder report_links fs :=
    List.enumFrom_map_snd 0 _
  have hn2 : ((pending_links setOrder report_links fs).enum.map
      Prod.snd).Nodup := by
    rw [hsnd]
    exact pending_links_nodup setOrder report_links fs hnd
  have hns : ∀ q ∈ (pending_links setOrder report_links fs).enum,
      q.snd ∉ file_links fs := fun q hq =>
    pending_links_not_scraped setOrder report_links fs q.snd
      (snd_mem_of_mem_enumFrom _ 0 hq)
  have h := scrape_loop_flush_positions world
    (pending_links setOrder report_links fs).length hnb
    (pending_links setOrder report_links fs).enum
    { all_data := [], processed_count := 0, scraped_links := file_links fs,
      reports_file := fs, events := [], driver_quit := false,
      crashed := false } hn2 hns
  rw [final_quit_events]
  simpa using h

/-- Witness for amended C3: two pending links that both extract
successfully flush once, at the final position 2 (2 is not a multiple of
100, but equals the pending count). -/
theorem flushes_exactly_at_batch_boundaries_witness :
    flush_positions
        (scrape_erowid_reports (fun l => l) worldGood [linkA, linkB]
          none).events = [2] := by
  rw [flushes_exactly_at_batch_boundaries (fun l => l) worldGood
    [linkA, linkB] none (by decide)
    (by intro href p h; cases h; decide)]
  decide

/-- Python set iteration order realised as reversed first-occurrence
order: duplicate-free with the same members, hence a legitimate
`list(set(...))` outcome. -/
def revOrder (l : List String) : List String := l.dedup.reverse

/-- Counterexample to claim C9: with the (legitimately realisable) set
order `revOrder`, the run over the input collection `[linkA, linkB]`
visits the links in the order `[linkB, linkA]` — not the input
collection order.  Line 58's `list(set(report_links))` discards the
input order before the loop runs. -/
theorem visit_order_not_input_order :
    (revOrder [linkA, linkB]).Perm [linkA, linkB] ∧
    (revOrder [linkA, linkB]).Nodup ∧
    visit_links
        (scrape_erowid_reports revOrder worldGood [linkA, linkB]
          none).events ≠ [linkA, linkB] := by
  decide

/-- Amended claim C9: links are visited exactly in the order of the
pending list — the unspecified `list(set(...))` reordering of the
distinct input links, filtered to links absent from the table —
restricted to links passing the domain-prefix check.  Processing order
follows that pending order, not the input collection order.  Stated for
runs in which no fetched page carries the ban signature. -/
theorem visits_follow_pending_order (setOrder : List String → List String)
    (world : String → Fetch) (report_links : List String)
    (fs : Option (List Record))
    (hnd : (setOrder report_links).Nodup)
    (hnb : ∀ (href : String) (p : Page),
      world href = Fetch.loaded p → page_is_ban p = false) :
    visit_links
        (scrape_erowid_reports setOrder world report_links fs).events =
      (pending_links setOrder report_links fs).filter
        (fun h => strStartsWith h erowid_origin) := by
  rw [scrape_erowid_reports_def]
  have hsnd : (pending_links setOrder report_links fs).enum.map Prod.snd =
      pending_links setOrder report_links fs :=
    List.enumFrom_map_snd 0 _
  have hn2 : ((pending_links setOrder report_links fs).enum.map
      Prod.snd).Nodup := by
    rw [hsnd]
    exact pending_links_nodup setOrder report_links fs hnd
  have hns : ∀ q ∈ (pending_links setOrder report_links fs).enum,
      q.snd ∉ file_links fs := fun q hq =>
    pending_links_not_scraped setOrder report_links fs q.snd
      (snd_mem_of_mem_enumFrom _ 0 hq)
  have h := scrape_loop_visit_links world
    (pending_links setOrder report_links fs).length hnb
    (pending_links setOrder report_links fs).enum
    { all_data := [], processed_count := 0, scraped_links := file_links fs,
      reports_file := fs, events := [], driver_quit := false,
      crashed := false } hn2 hns
  rw [hsnd] at h
  rw [final_quit_events]
  simpa using h

/-- Witness for amended C9: with the reversed set order the two links are
visited as `[linkB, linkA]`, the pending-list order. -/
theorem visits_follow_pending_order_witness :
    visit_links
        (scrape_erowid_reports revOrder worldGood [linkA, linkB]
          none).events = [linkB, linkA] := by
  rw [visits_follow_pending_order revOrder worldGood [linkA, linkB] none
    (by decide) (by intro href p h; cases h; decide)]
  decide

/-- Claim C8: when the links file exists, `get_all_report_links` loads it
and returns its Link Set unchanged — the returned list is
`list(set(lines))`, carrying exactly the links of the file's lines (a
Link Set has no ordering guarantee) — and it neither fetches the start
page nor writes the links file. -/
theorem links_file_short_circuits (setOrder : List String → List String)
    (lines index_hrefs : List String)
    (hso : ValidSetOrder setOrder) :
    (∀ x, x ∈ (get_all_report_links setOrder (some lines)
        index_hrefs).result ↔ x ∈ lines) ∧
    (get_all_report_links setOrder (some lines) index_hrefs).links_file =
      some lines ∧
    (get_all_report_links setOrder (some lines) index_hrefs).fetched =
      false :=
  ⟨fun x => (hso lines).2 x, rfl, rfl⟩

/-- Witness for C8: loading a concrete three-line links file (with a
duplicated line) returns the same link set, leaves the file alone, and
does not fetch. -/
theorem links_file_short_circuits_witness :
    (linkA ∈ (get_all_report_links (fun l => l.dedup)
        (some [linkA, linkB, linkA]) []).result ↔
      linkA ∈ [linkA, linkB, linkA]) ∧
    (get_all_report_links (fun l => l.dedup)
        (some [linkA, linkB, linkA]) []).links_file =
      some [linkA, linkB, linkA] ∧
    (get_all_report_links (fun l => l.dedup)
        (some [linkA, linkB, linkA]) []).fetched = false := by
  have h := links_file_short_circuits (fun l => l.dedup)
    [linkA, linkB, linkA] [] validSetOrder_dedup
  exact ⟨h.1 linkA, h.2.1, h.2.2⟩
